import Mathlib

/-!
Shallow embedding of `orderbot-sync.py`, a two-phase sync job:
a Paginator (`squarespace_items` / `squarespace_orders_json`) that walks a
paginated remote collection, and a Persister (`insert_items`) that flattens
order payloads into one row per line item and writes them through a single
PostgreSQL connection, plus the entry points `main` and `handler`.

Modelling conventions:
- Python exceptions are `Exn`; a function that can raise returns an
  `Except Exn _` (paired with its state and log output where relevant).
- JSON values carried opaquely by the program (`variantOptions`,
  `customizations`) are modelled by their serialized text, so the library
  serializer `json.dumps` is the identity on that representation.
- The remote endpoint is modelled as the sequence of page responses the
  server yields for a query: the recursive continuation call on
  `nextPageUrl` consumes the next element of that sequence.  Fetching past
  the end of the sequence is modelled as a network failure (unreachable in
  the well-formed scenarios the claims quantify over).
- The PostgreSQL transaction semantics the code itself relies on
  (it catches `psycopg2.errors.InFailedSqlTransaction`) is modelled
  explicitly: a statement error aborts the open transaction, every later
  statement in it fails with `InFailedSqlTransaction`, and `COMMIT` of an
  aborted transaction is a rollback.
- Log lines (`logging.*`) and `print` output are collected in a
  `List LogEvent`; dynamic parts of messages (driver error texts) are
  elided, keeping the static format-string prefix.
-/

/-- Python exceptions that can escape the modelled functions. -/
inductive Exn where
  | httpError (status : Nat)
  | connectionError
  | typeError (msg : String)
  | unboundLocalError (varName : String)
  | keyError (key : String)
  deriving DecidableEq, Repr

/-- A log line or `print` output, with its level. -/
inductive LogEvent where
  | critical (msg : String)
  | error (msg : String)
  | warning (msg : String)
  | printed (msg : String)
  deriving DecidableEq, Repr

/-- Monetary sub-structure: the code only reads the `value` field. -/
structure Money where
  value : String
  deriving DecidableEq, Repr

/-- Billing address sub-structure of an order payload. -/
structure BillingAddress where
  firstName : String
  lastName : String
  address1 : String
  address2 : String
  city : String
  state : String
  countryCode : String
  postalCode : String
  phone : String
  deriving DecidableEq, Repr

/-- One line item of an order.  `variantOptions` and `customizations` are
`Option`s: `none` models the key being absent from the JSON record
(`variantOptions` is read behind an `in` test, `customizations` is read
unconditionally). -/
structure LineItem where
  id : String
  variantId : String
  variantOptions : Option String
  sku : String
  productId : String
  productName : String
  quantity : Nat
  unitPricePaid : Money
  imageUrl : String
  lineItemType : String
  customizations : Option String
  deriving DecidableEq, Repr

/-- A top-level order payload, with exactly the fields the code reads. -/
structure Order where
  orderNumber : String
  createdOn : String
  modifiedOn : String
  channel : String
  testmode : Bool
  customerEmail : String
  billingAddress : BillingAddress
  fulfillmentStatus : String
  lineItems : List LineItem
  subtotal : Money
  shippingTotal : Money
  discountTotal : Money
  taxTotal : Money
  refundedTotal : Money
  grandTotal : Money
  channelName : String
  externalOrderReference : String
  fulfilledOn : Option String
  priceTaxInterpretation : String
  deriving DecidableEq, Repr

/-- The pagination descriptor of a response body. -/
structure PaginationInfo where
  hasNextPage : Bool
  nextPageUrl : String
  deriving DecidableEq, Repr

/-- One page response of the remote endpoint.  `networkError = true` models
`requests.get` itself raising a network-level exception for this fetch. -/
structure PageResponse where
  networkError : Bool
  status_code : Nat
  records : List Order
  paginationInfo : PaginationInfo
  deriving DecidableEq, Repr

/-- A Python value returned by `squarespace_items`: either the accumulated
list of records, or the literal `False` from the non-OK branch. -/
inductive FetchResult where
  | items (l : List Order)
  | pyFalse
  deriving DecidableEq, Repr

/-- Python truthiness of a `FetchResult` (`if not orders`). -/
def FetchResult.falsy : FetchResult → Bool
  | .items l => l.isEmpty
  | .pyFalse => true

/-- The library serializer `json.dumps`, on the serialized-text
representation of opaque JSON values (see module docstring). -/
def jsonDumps (v : String) : String := v

/-- `requests.Response.raise_for_status` raises `HTTPError` exactly for
status codes 400..599. -/
def errorStatus (status : Nat) : Bool := 400 ≤ status && status < 600

/-- Embedding of `squarespace_items` (lines 15-41).  The argument is the
sequence of page responses the server yields, starting at the requested
URL; the recursive call on `pagination.nextPageUrl` consumes the tail.
Per page: `requests.get` (a network error propagates), then
`raise_for_status` (HTTP 4xx/5xx propagates as `HTTPError`), then on
status 200 accumulate the records and recurse while `hasNextPage`; on a
non-200 non-error status log an error and return `False`.  Concatenating
the accumulated list with a recursive `False` result is a `TypeError`. -/
def squarespace_items : List PageResponse → Except Exn FetchResult × List LogEvent
  | [] => (.error .connectionError, [])
  | p :: rest =>
      if p.networkError then (.error .connectionError, [])
      else if errorStatus p.status_code then (.error (.httpError p.status_code), [])
      else if p.status_code = 200 then
        if p.paginationInfo.hasNextPage then
          match squarespace_items rest with
          | (.ok (.items l), logs) => (.ok (.items (p.records ++ l)), logs)
          | (.ok .pyFalse, logs) =>
              (.error (.typeError "can only concatenate list (not bool) to list"), logs)
          | (.error e, logs) => (.error e, logs)
        else (.ok (.items p.records), [])
      else
        (.ok .pyFalse,
         [.error ("Return status from response was requests.get was NOT OK: "
                  ++ toString p.status_code)])

/-- Query parameters of the top-level orders fetch. -/
structure QueryParams where
  modifiedAfter : String
  modifiedBefore : String
  deriving DecidableEq, Repr

/-- Zero-padding of a natural number to a given width, as
`datetime.date.isoformat` pads its components. -/
def natPad (width n : Nat) : String :=
  let s := toString n
  String.mk (List.replicate (width - s.length) '0') ++ s

/-- `datetime.date(y, m, d).isoformat()`. -/
def date_isoformat (y m d : Nat) : String :=
  natPad 4 y ++ "-" ++ natPad 2 m ++ "-" ++ natPad 2 d

/-- Line 47: first instant of the current year, UTC midnight. -/
def year_beginning (current_year : Nat) : String :=
  date_isoformat current_year 1 1 ++ "T00:00:00.0Z"

/-- Line 48: December 30 of the current year, UTC midnight. -/
def year_end (current_year : Nat) : String :=
  date_isoformat current_year 12 30 ++ "T00:00:00.0Z"

/-- Lines 51-54: the fixed query-parameter window of the top-level call. -/
def request_parameters (current_year : Nat) : QueryParams :=
  { modifiedAfter := year_beginning current_year
    modifiedBefore := year_end current_year }

/-- A model of the remote server: the page-response sequence it yields for
a given query (`none` being the parameterless continuation calls). -/
def Server : Type := Option QueryParams → List PageResponse

/-- Embedding of `squarespace_orders_json` (lines 43-67).  It fetches with
the fixed current-year window; on a falsy result it logs a warning.  An
`HTTPError` escaping `squarespace_items` is caught and logged, but then
`return orders` reads a never-assigned local, raising
`UnboundLocalError`; any other exception propagates unchanged. -/
def squarespace_orders_json (current_year : Nat) (server : Server) :
    Except Exn FetchResult × List LogEvent :=
  match squarespace_items (server (some (request_parameters current_year))) with
  | (.ok orders, logs) =>
      (.ok orders,
       logs ++ if orders.falsy then [.warning "No orders since the beginning of the year"] else [])
  | (.error (.httpError s), logs) =>
      (.error (.unboundLocalError "orders"),
       logs ++ [.error ("Failed to get new orders: " ++ toString s)])
  | (.error e, logs) => (.error e, logs)

/-- One persisted row of the `syc_orders` table, in the column order of the
INSERT statement (lines 95-108). -/
structure Row where
  id : String
  order_number : String
  created_on : String
  modified_on : String
  channel : String
  testmode : Bool
  customer_email : String
  billing_first_name : String
  billing_last_name : String
  billing_address1 : String
  billing_address2 : String
  billing_city : String
  billing_state : String
  billing_country_code : String
  billing_postal_code : String
  billing_phone : String
  fulfillment_status : String
  line_item_id : String
  variant_id : String
  variant_options : Option String
  sku : String
  product_id : String
  product_name : String
  quantity : Nat
  unit_price_paid : String
  image_url : String
  line_item_type : String
  customizations : String
  subtotal : String
  shipping_total : String
  discount_total : String
  tax_total : String
  refunded_total : String
  grand_total : String
  channel_name : String
  external_order_reference : String
  fulfilled_on : Option String
  price_tax_interpretation : String
  deriving DecidableEq, Repr

/-- Line 92: the variant-options column value -- `json.dumps` of the field
when present, SQL NULL (`none`) when the key is absent. -/
def variant_options_value (li : LineItem) : Option String :=
  match li.variantOptions with
  | some v => some (jsonDumps v)
  | none => none

/-- The values tuple of lines 109-121, as a row: order-level fields
denormalized onto the line item, keyed by the line item id.  `c` is the
(present) `customizations` value; its absence is handled before this
builder is reached (see `process_line_item`). -/
def build_row (payload : Order) (li : LineItem) (c : String) : Row :=
  { id := li.id
    order_number := payload.orderNumber
    created_on := payload.createdOn
    modified_on := payload.modifiedOn
    channel := payload.channel
    testmode := payload.testmode
    customer_email := payload.customerEmail
    billing_first_name := payload.billingAddress.firstName
    billing_last_name := payload.billingAddress.lastName
    billing_address1 := payload.billingAddress.address1
    billing_address2 := payload.billingAddress.address2
    billing_city := payload.billingAddress.city
    billing_state := payload.billingAddress.state
    billing_country_code := payload.billingAddress.countryCode
    billing_postal_code := payload.billingAddress.postalCode
    billing_phone := payload.billingAddress.phone
    fulfillment_status := payload.fulfillmentStatus
    line_item_id := li.id
    variant_id := li.variantId
    variant_options := variant_options_value li
    sku := li.sku
    product_id := li.productId
    product_name := li.productName
    quantity := li.quantity
    unit_price_paid := li.unitPricePaid.value
    image_url := li.imageUrl
    line_item_type := li.lineItemType
    customizations := jsonDumps c
    subtotal := payload.subtotal.value
    shipping_total := payload.shippingTotal.value
    discount_total := payload.discountTotal.value
    tax_total := payload.taxTotal.value
    refunded_total := payload.refundedTotal.value
    grand_total := payload.grandTotal.value
    channel_name := payload.channelName
    external_order_reference := payload.externalOrderReference
    fulfilled_on := payload.fulfilledOn
    price_tax_interpretation := payload.priceTaxInterpretation }

/-- The statement-level errors the code catches (lines 125-128). -/
inductive DbErr where
  | uniqueViolation
  | inFailedSqlTransaction
  deriving DecidableEq, Repr

/-- State of the single connection's open transaction: the committed
table, the rows inserted but not yet committed, and whether a statement
error has aborted the transaction. -/
structure TxState where
  table : List Row
  pendingRows : List Row
  aborted : Bool
  deriving DecidableEq, Repr

/-- `cursor.execute` of the INSERT: in an aborted transaction every
statement fails with `InFailedSqlTransaction`; a duplicate primary key
(`id`, visible in the committed table or the transaction's own pending
rows) raises `UniqueViolation` and aborts the transaction; otherwise the
row joins the pending set. -/
def execute_insert (r : Row) (tx : TxState) : Option DbErr × TxState :=
  if tx.aborted then (some .inFailedSqlTransaction, tx)
  else if (tx.table ++ tx.pendingRows).any (fun q => q.id = r.id) then
    (some .uniqueViolation, { tx with aborted := true })
  else
    (none, { tx with pendingRows := tx.pendingRows ++ [r] })

/-- `conn.commit()`: commits the pending rows, except that committing an
aborted transaction is a rollback.  Either way a fresh transaction
begins. -/
def tx_commit (tx : TxState) : TxState :=
  if tx.aborted then { table := tx.table, pendingRows := [], aborted := false }
  else { table := tx.table ++ tx.pendingRows, pendingRows := [], aborted := false }

/-- One iteration of the inner loop (lines 89-128) for a single line item:
the unconditional `line_item['customizations']` read raises a `KeyError`
that no except clause matches; otherwise the INSERT is attempted and
`UniqueViolation` / `InFailedSqlTransaction` are caught and printed. -/
def process_line_item (payload : Order) (li : LineItem) (tx : TxState) :
    Option Exn × TxState × List LogEvent :=
  match li.customizations with
  | none => (some (.keyError "customizations"), tx, [])
  | some c =>
      match execute_insert (build_row payload li c) tx with
      | (none, tx') => (none, tx', [])
      | (some .uniqueViolation, tx') =>
          (none, tx', [.printed "Caught duplicate lineitem, skipping"])
      | (some .inFailedSqlTransaction, tx') =>
          (none, tx', [.printed "Some error in the transaction"])

/-- The inner loop over one payload's line items; an uncaught exception
stops the loop and propagates. -/
def process_line_items (payload : Order) :
    List LineItem → TxState → Option Exn × TxState × List LogEvent
  | [], tx => (none, tx, [])
  | li :: rest, tx =>
      match process_line_item payload li tx with
      | (some e, tx', logs) => (some e, tx', logs)
      | (none, tx', logs) =>
          match process_line_items payload rest tx' with
          | (res, tx'', logs') => (res, tx'', logs ++ logs')

/-- The outer loop over order payloads (lines 88-130): after each
payload's line items, `conn.commit()`; an uncaught exception skips the
commit and propagates. -/
def process_orders : List Order → TxState → Option Exn × TxState × List LogEvent
  | [], tx => (none, tx, [])
  | payload :: rest, tx =>
      match process_line_items payload payload.lineItems tx with
      | (some e, tx', logs) => (some e, tx', logs)
      | (none, tx', logs) =>
          match process_orders rest (tx_commit tx') with
          | (res, tx'', logs') => (res, tx'', logs ++ logs')

/-- A Python value returned by `insert_items` or `main`: a plain integer,
or a status-response dict with a `statusCode` and a JSON `body`. -/
inductive PyRet where
  | int (n : Nat)
  | response (statusCode : Nat) (body : String)
  deriving DecidableEq, Repr

deriving instance DecidableEq for Except

/-- The complete observable outcome of one `insert_items` run: its return
value or escaped exception, the committed table afterwards, whether the
close path (lines 132-133) ran, and its output lines. -/
structure InsertOutput where
  result : Except Exn PyRet
  table : List Row
  connClosed : Bool
  logs : List LogEvent
  deriving DecidableEq, Repr

/-- Embedding of `insert_items` (lines 69-137).  `connError` models
`psycopg2.connect` failing (with the exception text): then a 500 response
dict is returned and nothing is written.  Iterating a `False` fetch result
is a `TypeError`.  Otherwise the order loop runs; on normal completion the
connection is closed, a success line is printed and 0 is returned.  An
exception escaping the loop skips the close path, and the open
transaction's pending rows are never committed. -/
def insert_items (connError : Option String) (items : FetchResult) (table : List Row) :
    InsertOutput :=
  match connError with
  | some msg =>
      { result := .ok (.response 500 (jsonDumps ("Database connection error: " ++ msg)))
        table := table
        connClosed := false
        logs := [] }
  | none =>
      match items with
      | .pyFalse =>
          { result := .error (.typeError "bool object is not iterable")
            table := table
            connClosed := false
            logs := [] }
      | .items orders =>
          match process_orders orders { table := table, pendingRows := [], aborted := false } with
          | (some e, tx, logs) =>
              { result := .error e, table := tx.table, connClosed := false, logs := logs }
          | (none, tx, logs) =>
              { result := .ok (.int 0)
                table := tx.table
                connClosed := true
                logs := logs ++ [.printed "Successful load out"] }

/-- The complete observable outcome of one `main` run. -/
structure MainOutput where
  result : Except Exn PyRet
  table : List Row
  logs : List LogEvent
  deriving DecidableEq, Repr

namespace OrderbotSync

/-- Embedding of `main` (lines 139-154).  With no API credential in the
environment it logs critically and returns 1, touching neither the server
nor the store.  Otherwise it fetches, persists, and -- discarding the
return value of `insert_items` -- returns the fixed 200 success
response.  (Namespaced because a top-level `main` is reserved in Lean.) -/
def main (apiKey : Option String) (current_year : Nat) (server : Server)
    (connError : Option String) (table : List Row) : MainOutput :=
  match apiKey with
  | none =>
      { result := .ok (.int 1)
        table := table
        logs := [.critical "Failed to pass SQUARESPACE_API_KEY. Exiting"] }
  | some _ =>
      match squarespace_orders_json current_year server with
      | (.error e, logs) => { result := .error e, table := table, logs := logs }
      | (.ok orders, logs) =>
          let ins := insert_items connError orders table
          match ins.result with
          | .error e => { result := .error e, table := ins.table, logs := logs ++ ins.logs }
          | .ok _ =>
              { result := .ok (.response 200 (jsonDumps "Data inserted successfully!"))
                table := ins.table
                logs := logs ++ ins.logs }

/-- Embedding of `handler` (lines 156-157): a thin adapter over `main`
that ignores the event and context. -/
def handler (_event _context : Unit) (apiKey : Option String) (current_year : Nat)
    (server : Server) (connError : Option String) (table : List Row) : MainOutput :=
  main apiKey current_year server connError table

end OrderbotSync

/-- A concrete billing address for concrete-input theorems. -/
def sampleBilling : BillingAddress :=
  { firstName := "Ada"
    lastName := "Lovelace"
    address1 := "1 Main St"
    address2 := ""
    city := "Sherborn"
    state := "MA"
    countryCode := "US"
    postalCode := "01770"
    phone := "555-0100" }

/-- A concrete line item with the given id and optional fields, for
concrete-input theorems. -/
def mkLineItem (id : String) (vOpts cust : Option String) : LineItem :=
  { id := id
    variantId := "var-" ++ id
    variantOptions := vOpts
    sku := "ABC"
    productId := "prod-1"
    productName := "Burgee"
    quantity := 2
    unitPricePaid := { value := "19.99" }
    imageUrl := "http://img"
    lineItemType := "PHYSICAL_PRODUCT"
    customizations := cust }

/-- A concrete order payload carrying the given line items, for
concrete-input theorems. -/
def mkOrder (num : String) (lis : List LineItem) : Order :=
  { orderNumber := num
    createdOn := "2026-01-02T00:00:00Z"
    modifiedOn := "2026-01-03T00:00:00Z"
    channel := "web"
    testmode := false
    customerEmail := "ada@example.com"
    billingAddress := sampleBilling
    fulfillmentStatus := "PENDING"
    lineItems := lis
    subtotal := { value := "39.98" }
    shippingTotal := { value := "0.00" }
    discountTotal := { value := "0.00" }
    taxTotal := { value := "2.50" }
    refundedTotal := { value := "0.00" }
    grandTotal := { value := "42.48" }
    channelName := "squarespace"
    externalOrderReference := ""
    fulfilledOn := none
    priceTaxInterpretation := "EXCLUSIVE" }

/-- A concrete 200 page response with the given records and has-next
flag, for concrete-input theorems. -/
def mkPage (records : List Order) (hasNext : Bool) : PageResponse :=
  { networkError := false
    status_code := 200
    records := records
    paginationInfo := { hasNextPage := hasNext, nextPageUrl := if hasNext then "next" else "" } }

/-- A page whose fetch answers HTTP 404: `raise_for_status` raises. -/
def page404 : PageResponse :=
  { networkError := false
    status_code := 404
    records := []
    paginationInfo := { hasNextPage := false, nextPageUrl := "" } }

/-- A page whose fetch itself fails at the network level. -/
def pageNetworkDown : PageResponse :=
  { networkError := true
    status_code := 200
    records := []
    paginationInfo := { hasNextPage := false, nextPageUrl := "" } }

/-- Claim C2 (code bug evidence): on a fetch whose page answers a
non-success HTTP status (404), `squarespace_orders_json` logs the failure
but then raises `UnboundLocalError` from `return orders` (the local was
never assigned), and on a network-level exception the exception is not
caught at all -- in neither case is a "no orders" result returned to the
caller. -/
theorem squarespace_orders_json_fetch_failure_raises :
    squarespace_orders_json 2026 (fun _ => [page404]) =
      (.error (.unboundLocalError "orders"), [.error "Failed to get new orders: 404"])
    ∧ squarespace_orders_json 2026 (fun _ => [pageNetworkDown]) =
      (.error .connectionError, []) := by
  constructor <;> rfl

/-- A row already persisted for line item `li-B` by a previous run. -/
def rowDup : Row := build_row (mkOrder "1000" []) (mkLineItem "li-B" none (some "c")) "c"

/-- An order whose fresh line item `li-A` precedes the duplicate `li-B`. -/
def orderFreshThenDup : Order :=
  mkOrder "1001" [mkLineItem "li-A" none (some "cA"), mkLineItem "li-B" none (some "cB")]

/-- An order whose duplicate line item `li-B` precedes the fresh `li-A`. -/
def orderDupThenFresh : Order :=
  mkOrder "1001" [mkLineItem "li-B" none (some "cB"), mkLineItem "li-A" none (some "cA")]

/-- Claim C4 (code bug evidence): for an order with one fresh and one
duplicate line item, the duplicate's `UniqueViolation` aborts the open
transaction, so the per-order `conn.commit()` is a rollback: in both
orderings the store afterwards still holds only the pre-existing `li-B`
row -- the successfully inserted `li-A` row is lost, while the run still
reports success (0). -/
theorem insert_items_partial_batch_rolled_back :
    ((insert_items none (.items [orderFreshThenDup]) [rowDup]).table.map Row.id = ["li-B"]
      ∧ (insert_items none (.items [orderFreshThenDup]) [rowDup]).result = .ok (.int 0))
    ∧ (insert_items none (.items [orderDupThenFresh]) [rowDup]).table.map Row.id = ["li-B"] := by
  refine ⟨⟨?_, ?_⟩, ?_⟩ <;> rfl

/-- Claim C5: when the initial database connection cannot be established,
`insert_items` aborts immediately with a structured 500 connection-error
result, performs no inserts (the store is unchanged), and emits no
output. -/
theorem insert_items_connection_error_aborts (msg : String) (items : FetchResult)
    (table : List Row) :
    insert_items (some msg) items table =
      { result := .ok (.response 500 (jsonDumps ("Database connection error: " ++ msg)))
        table := table
        connClosed := false
        logs := [] } := rfl

/-- Claim C6 (code bug evidence): on an externally-triggered invocation in
which the persistence phase fails with a store connection error,
`insert_items` does produce a structured 500 error result, but `main`
discards `insert_items`' return value, so `handler` still answers the
fixed 200 success response -- the failure does not surface in the status
response. -/
theorem handler_swallows_connection_error :
    OrderbotSync.handler () () (some "key") 2026 (fun _ => [mkPage [] false])
        (some "connection refused") [] =
      { result := .ok (.response 200 "Data inserted successfully!")
        table := []
        logs := [.warning "No orders since the beginning of the year"] }
    ∧ (insert_items (some "connection refused") (.items []) []).result =
      .ok (.response 500 "Database connection error: connection refused") := by
  constructor <;> rfl

/-- Claim C9: invoking the entry point with no API credential in the
environment returns the failure exit value 1 immediately after a
critical-level log line, leaves the store untouched, and performs zero
network calls: the outcome is the same for every server, every store and
every connection state, none of which is consulted. -/
theorem main_missing_credential_gate (current_year : Nat) (server : Server)
    (connError : Option String) (table : List Row) :
    OrderbotSync.main none current_year server connError table =
      { result := .ok (.int 1)
        table := table
        logs := [.critical "Failed to pass SQUARESPACE_API_KEY. Exiting"] } := rfl

/-- Claim C7: the query window of the top-level fetch is a fixed policy --
the result of `squarespace_orders_json` depends on the server only
through its response to exactly `request_parameters current_year` (no
other query is ever issued) -- and that window is January 1 to
December 30 of the current calendar year at UTC midnight. -/
theorem orders_fixed_year_window :
    (∀ (current_year : Nat) (s₁ s₂ : Server),
        s₁ (some (request_parameters current_year)) =
          s₂ (some (request_parameters current_year)) →
        squarespace_orders_json current_year s₁ = squarespace_orders_json current_year s₂)
    ∧ request_parameters 2026 =
        { modifiedAfter := "2026-01-01T00:00:00.0Z"
          modifiedBefore := "2026-12-30T00:00:00.0Z" } := by
  refine ⟨?_, rfl⟩
  intro y s₁ s₂ h
  unfold squarespace_orders_json
  rw [h]

/-- A server answering one empty final page for every query. -/
def serverEmptyPage : Server := fun _ => [mkPage [] false]

/-- A server that agrees with `serverEmptyPage` on parameterized queries
but diverges on the parameterless continuation query. -/
def serverEmptyPageAlt : Server := fun q =>
  match q with
  | some _ => [mkPage [] false]
  | none => [mkPage [] true, mkPage [] false]

/-- Witness for `orders_fixed_year_window` at concrete servers that agree
on the fixed window query. -/
theorem orders_fixed_year_window_witness :
    squarespace_orders_json 2026 serverEmptyPage = squarespace_orders_json 2026 serverEmptyPageAlt :=
  orders_fixed_year_window.1 2026 serverEmptyPage serverEmptyPageAlt rfl

/-- Flattening lists of a common length `k` yields `N * k` elements. -/
lemma flatten_length_const {α : Type} (L : List (List α)) (k : Nat)
    (h : ∀ l ∈ L, l.length = k) : L.flatten.length = L.length * k := by
  induction L with
  | nil => simp
  | cons l L ih =>
      simp only [List.flatten_cons, List.length_append, List.length_cons]
      rw [h l (List.mem_cons_self l L), ih (fun x hx => h x (List.mem_cons_of_mem l hx)),
        Nat.succ_mul, Nat.add_comm]

/-- Claim C1: for a simulated endpoint yielding pages that all answer HTTP
success (status 200, no network failure) with `hasNextPage` true exactly
on every page but the last, `squarespace_items` returns the concatenation
of all pages' record arrays in page-then-within-page order -- when every
page carries `k` records, exactly `N * k` records in total -- and logs
nothing. -/
theorem squarespace_items_pagination_completeness
    (ps : List PageResponse) (plast : PageResponse) (k : Nat)
    (hok : ∀ p ∈ ps ++ [plast],
      p.networkError = false ∧ p.status_code = 200 ∧ p.records.length = k)
    (hnext : ∀ p ∈ ps, p.paginationInfo.hasNextPage = true)
    (hlast : plast.paginationInfo.hasNextPage = false) :
    squarespace_items (ps ++ [plast]) =
      (.ok (.items (((ps ++ [plast]).map PageResponse.records).flatten)),
        ([] : List LogEvent))
    ∧ (((ps ++ [plast]).map PageResponse.records).flatten).length
        = (ps ++ [plast]).length * k := by
  constructor
  · induction ps with
    | nil =>
        obtain ⟨hne, hsc, _⟩ := hok plast (by simp)
        simp [squarespace_items, hne, hsc, hlast, errorStatus]
    | cons p ps ih =>
        obtain ⟨hne, hsc, _⟩ := hok p (by simp)
        have hnx := hnext p (List.mem_cons_self p ps)
        have hrec := ih
          (fun q hq => hok q (by simp at hq ⊢; tauto))
          (fun q hq => hnext q (List.mem_cons_of_mem p hq))
        simp only [List.cons_append, squarespace_items, hne, hsc, hnx, errorStatus,
          if_false, if_true, Bool.false_eq_true]
        simp only [show ((400 ≤ 200 && 200 < 600) = false) from rfl]
        simp [hrec]
  · have hlen : ∀ l ∈ (ps ++ [plast]).map PageResponse.records, l.length = k := by
      intro l hl
      simp only [List.mem_map] at hl
      obtain ⟨p, hp, rfl⟩ := hl
      exact (hok p hp).2.2
    rw [flatten_length_const _ k hlen, List.length_map]

/-- Two single-record pages for the pagination witness. -/
def pageW1 : PageResponse := mkPage [mkOrder "1001" [mkLineItem "li-1" none (some "c1")]] true

/-- The final single-record page for the pagination witness. -/
def pageW2 : PageResponse := mkPage [mkOrder "1002" [mkLineItem "li-2" none (some "c2")]] false

/-- Witness for `squarespace_items_pagination_completeness` at two
concrete pages of one record each. -/
theorem squarespace_items_pagination_completeness_witness :
    (squarespace_items ([pageW1] ++ [pageW2]) =
      (.ok (.items ((([pageW1] ++ [pageW2]).map PageResponse.records).flatten)),
        ([] : List LogEvent))
    ∧ ((([pageW1] ++ [pageW2]).map PageResponse.records).flatten).length
        = ([pageW1] ++ [pageW2]).length * 1) :=
  squarespace_items_pagination_completeness [pageW1] pageW2 1
    (by decide) (by decide) (by decide)

/-- In an aborted transaction every insert fails with
`InFailedSqlTransaction`, which the loop catches and prints. -/
lemma process_line_item_failed_tx (payload : Order) (li : LineItem) (c : String)
    (t pnd : List Row) (hcc : li.customizations = some c) :
    process_line_item payload li ⟨t, pnd, true⟩ =
      (none, ⟨t, pnd, true⟩, [.printed "Some error in the transaction"]) := by
  simp [process_line_item, hcc, execute_insert]

/-- Inserting a line item whose id is already in the committed table
raises `UniqueViolation`, which the loop catches and prints, leaving the
transaction aborted. -/
lemma process_line_item_dup (payload : Order) (li : LineItem) (c : String) (t : List Row)
    (hcc : li.customizations = some c) (hdup : ∃ r ∈ t, r.id = li.id) :
    process_line_item payload li ⟨t, [], false⟩ =
      (none, ⟨t, [], true⟩, [.printed "Caught duplicate lineitem, skipping"]) := by
  obtain ⟨r, hr, hrid⟩ := hdup
  have hex : ∃ x ∈ t, x.id = (build_row payload li c).id :=
    ⟨r, hr, by simp [build_row, hrid]⟩
  simp [process_line_item, hcc, execute_insert, hex]

/-- Re-running the inner loop on line items whose ids are all already in
the committed table changes neither the table nor the pending set, raises
nothing, and only prints skip messages. -/
lemma process_line_items_all_duplicate (payload : Order) (lis : List LineItem) (tx : TxState)
    (hpend : tx.pendingRows = [])
    (h : ∀ li ∈ lis, li.customizations ≠ none ∧ ∃ r ∈ tx.table, r.id = li.id) :
    ∃ ab logs, process_line_items payload lis tx = (none, ⟨tx.table, [], ab⟩, logs)
      ∧ ∀ e ∈ logs, ∃ m, e = .printed m := by
  induction lis generalizing tx with
  | nil =>
      obtain ⟨t, pnd, ab⟩ := tx
      replace hpend : pnd = [] := hpend
      subst hpend
      exact ⟨ab, [], rfl, by simp⟩
  | cons li rest ih =>
      obtain ⟨hc, hdup⟩ := h li (List.mem_cons_self li rest)
      obtain ⟨c, hcc⟩ : ∃ c, li.customizations = some c := by
        cases hx : li.customizations with
        | none => exact absurd hx hc
        | some c => exact ⟨c, rfl⟩
      obtain ⟨t, pnd, ab⟩ := tx
      replace hpend : pnd = [] := hpend
      subst hpend
      obtain ⟨ab', logs', hrec, hprt⟩ := ih ⟨t, [], true⟩ rfl
        (fun x hx => h x (List.mem_cons_of_mem li hx))
      cases ab with
      | true =>
          refine ⟨ab', .printed "Some error in the transaction" :: logs', ?_, ?_⟩
          · simp only [process_line_items, process_line_item_failed_tx payload li c t [] hcc,
              hrec, List.singleton_append]
          · intro e he
            rcases List.mem_cons.mp he with rfl | he
            · exact ⟨_, rfl⟩
            · exact hprt e he
      | false =>
          refine ⟨ab', .printed "Caught duplicate lineitem, skipping" :: logs', ?_, ?_⟩
          · simp only [process_line_items, process_line_item_dup payload li c t hcc hdup,
              hrec, List.singleton_append]
          · intro e he
            rcases List.mem_cons.mp he with rfl | he
            · exact ⟨_, rfl⟩
            · exact hprt e he

/-- Re-running the order loop on payloads whose line items are all already
in the committed table changes nothing, raises nothing, and only prints
skip messages. -/
lemma process_orders_all_duplicate (orders : List Order) (tx : TxState)
    (hpend : tx.pendingRows = [])
    (h : ∀ payload ∈ orders, ∀ li ∈ payload.lineItems,
        li.customizations ≠ none ∧ ∃ r ∈ tx.table, r.id = li.id) :
    ∃ ab logs, process_orders orders tx = (none, ⟨tx.table, [], ab⟩, logs)
      ∧ ∀ e ∈ logs, ∃ m, e = .printed m := by
  induction orders generalizing tx with
  | nil =>
      obtain ⟨t, pnd, ab⟩ := tx
      replace hpend : pnd = [] := hpend
      subst hpend
      exact ⟨ab, [], rfl, by simp⟩
  | cons payload rest ih =>
      obtain ⟨t, pnd, ab⟩ := tx
      replace hpend : pnd = [] := hpend
      subst hpend
      obtain ⟨ab1, logs1, h1, hp1⟩ :=
        process_line_items_all_duplicate payload payload.lineItems ⟨t, [], ab⟩ rfl
          (h payload (List.mem_cons_self payload rest))
      have hcommit : tx_commit ⟨t, [], ab1⟩ = ⟨t, [], false⟩ := by
        cases ab1 <;> simp [tx_commit]
      obtain ⟨ab2, logs2, h2, hp2⟩ := ih ⟨t, [], false⟩ rfl
        (fun q hq => h q (List.mem_cons_of_mem payload hq))
      refine ⟨ab2, logs1 ++ logs2, ?_, ?_⟩
      · simp only [process_orders, h1, hcommit, h2]
      · intro e he
        rcases List.mem_append.mp he with he | he
        · exact hp1 e he
        · exact hp2 e he

/-- Claim C3: when the store already holds a row for every line item of
the batch, re-running `insert_items` on the same payloads is a no-op --
the store afterwards is exactly the store before (so still exactly one
row per line-item id), every already-present row is logged and skipped
(every output line is a plain skip/status print, no error), and the run
reports success (0) with the connection closed. -/
theorem insert_items_rerun_idempotent (orders : List Order) (table : List Row)
    (hids : (table.map Row.id).Nodup)
    (h : ∀ payload ∈ orders, ∀ li ∈ payload.lineItems,
        li.customizations ≠ none ∧ ∃ r ∈ table, r.id = li.id) :
    (insert_items none (.items orders) table).result = .ok (.int 0)
    ∧ (insert_items none (.items orders) table).table = table
    ∧ (insert_items none (.items orders) table).connClosed = true
    ∧ (∀ payload ∈ orders, ∀ li ∈ payload.lineItems,
        ((insert_items none (.items orders) table).table.map Row.id).count li.id = 1)
    ∧ ∀ e ∈ (insert_items none (.items orders) table).logs, ∃ m, e = .printed m := by
  obtain ⟨ab, logs, hrun, hprt⟩ := process_orders_all_duplicate orders ⟨table, [], false⟩ rfl h
  have hins : insert_items none (.items orders) table =
      { result := .ok (.int 0)
        table := table
        connClosed := true
        logs := logs ++ [.printed "Successful load out"] } := by
    simp only [insert_items, hrun]
  refine ⟨by rw [hins], by rw [hins], by rw [hins], ?_, ?_⟩
  · intro payload hp li hli
    rw [hins]
    obtain ⟨-, r, hr, hrid⟩ := h payload hp li hli
    exact List.count_eq_one_of_mem hids (List.mem_map.mpr ⟨r, hr, hrid⟩)
  · intro e he
    rw [hins] at he
    rcases List.mem_append.mp he with he | he
    · exact hprt e he
    · obtain rfl := List.mem_singleton.mp he
      exact ⟨_, rfl⟩

/-- A concrete line item, order and stored row for the idempotence
witness. -/
def wLineItem : LineItem := mkLineItem "li-1" none (some "c1")

/-- The order of the idempotence witness. -/
def wOrder : Order := mkOrder "1001" [wLineItem]

/-- The row a previous run stored for `wLineItem`. -/
def wRow : Row := build_row wOrder wLineItem "c1"

/-- Witness for `insert_items_rerun_idempotent` at one concrete order
whose only line item is already stored. -/
theorem insert_items_rerun_idempotent_witness :
    (insert_items none (.items [wOrder]) [wRow]).result = .ok (.int 0)
    ∧ (insert_items none (.items [wOrder]) [wRow]).table = [wRow] := by
  have h := insert_items_rerun_idempotent [wOrder] [wRow] (by decide) (by decide)
  exact ⟨h.1, h.2.1⟩

/-- Claim C8: a line item lacking `variantOptions` persists successfully
with the variant-options column set to SQL NULL (`none`), the defined
absent marker, while a present `variantOptions` field is serialized as
structured text in that column. -/
theorem insert_items_missing_variant_options (payload : Order) (li : LineItem) (c : String)
    (table : List Row)
    (hitems : payload.lineItems = [li])
    (hvo : li.variantOptions = none)
    (hc : li.customizations = some c)
    (hfresh : ∀ r ∈ table, r.id ≠ li.id) :
    (insert_items none (.items [payload]) table).result = .ok (.int 0)
    ∧ (insert_items none (.items [payload]) table).table = table ++ [build_row payload li c]
    ∧ (build_row payload li c).variant_options = none
    ∧ ∀ (p' : Order) (li' : LineItem) (c' v : String), li'.variantOptions = some v →
        (build_row p' li' c').variant_options = some (jsonDumps v) := by
  have hnot : ¬ ∃ x ∈ table, x.id = (build_row payload li c).id := by
    rintro ⟨x, hx, hxid⟩
    exact hfresh x hx (by simpa [build_row] using hxid)
  have hstep : process_line_item payload li ⟨table, [], false⟩ =
      (none, ⟨table, [build_row payload li c], false⟩, []) := by
    simp [process_line_item, hc, execute_insert, hnot]
  have hloop : process_line_items payload [li] ⟨table, [], false⟩ =
      (none, ⟨table, [build_row payload li c], false⟩, []) := by
    simp only [process_line_items, hstep, List.nil_append, List.append_nil]
  have horders : process_orders [payload] ⟨table, [], false⟩ =
      (none, ⟨table ++ [build_row payload li c], [], false⟩, []) := by
    simp only [process_orders, hitems, hloop]
    simp [tx_commit]
  have hins : insert_items none (.items [payload]) table =
      { result := .ok (.int 0)
        table := table ++ [build_row payload li c]
        connClosed := true
        logs := [.printed "Successful load out"] } := by
    simp only [insert_items, horders, List.nil_append]
  refine ⟨by rw [hins], by rw [hins], ?_, ?_⟩
  · simp [build_row, variant_options_value, hvo]
  · intro p' li' c' v hv
    simp [build_row, variant_options_value, hv]

/-- The line item of the variant-options witness: no `variantOptions`. -/
def wLineItemV : LineItem := mkLineItem "li-3" none (some "c3")

/-- The order of the variant-options witness. -/
def wOrderV : Order := mkOrder "1003" [wLineItemV]

/-- Witness for `insert_items_missing_variant_options` at a concrete
order into an empty store. -/
theorem insert_items_missing_variant_options_witness :
    (insert_items none (.items [wOrderV]) []).result = .ok (.int 0)
    ∧ (insert_items none (.items [wOrderV]) []).table = [] ++ [build_row wOrderV wLineItemV "c3"]
    ∧ (build_row wOrderV wLineItemV "c3").variant_options = none := by
  have h := insert_items_missing_variant_options wOrderV wLineItemV "c3" []
    rfl rfl rfl (by simp)
  exact ⟨h.1, h.2.1, h.2.2.1⟩

/-- A caught statement error never escapes the per-line-item try block
when `customizations` is present. -/
lemma process_line_item_no_exn (payload : Order) (li : LineItem) (tx : TxState)
    (hc : li.customizations ≠ none) :
    ∃ tx' logs, process_line_item payload li tx = (none, tx', logs) := by
  obtain ⟨c, hcc⟩ : ∃ c, li.customizations = some c := by
    cases hx : li.customizations with
    | none => exact absurd hx hc
    | some c => exact ⟨c, rfl⟩
  rcases hE : execute_insert (build_row payload li c) tx with ⟨err, tx1⟩
  cases err with
  | none => exact ⟨tx1, [], by simp [process_line_item, hcc, hE]⟩
  | some d =>
      cases d with
      | uniqueViolation =>
          exact ⟨tx1, [.printed "Caught duplicate lineitem, skipping"],
            by simp [process_line_item, hcc, hE]⟩
      | inFailedSqlTransaction =>
          exact ⟨tx1, [.printed "Some error in the transaction"],
            by simp [process_line_item, hcc, hE]⟩

/-- The inner loop raises nothing when every line item has
`customizations`. -/
lemma process_line_items_no_exn (payload : Order) (lis : List LineItem) (tx : TxState)
    (h : ∀ x ∈ lis, x.customizations ≠ none) :
    ∃ tx' logs, process_line_items payload lis tx = (none, tx', logs) := by
  induction lis generalizing tx with
  | nil => exact ⟨tx, [], rfl⟩
  | cons li rest ih =>
      obtain ⟨tx1, logs1, h1⟩ :=
        process_line_item_no_exn payload li tx (h li (List.mem_cons_self li rest))
      obtain ⟨tx2, logs2, h2⟩ := ih tx1 (fun x hx => h x (List.mem_cons_of_mem li hx))
      exact ⟨tx2, logs1 ++ logs2, by simp only [process_line_items, h1, h2]⟩

/-- The inner loop raises `KeyError` at the first line item lacking
`customizations`. -/
lemma process_line_items_keyError (payload : Order) (pre : List LineItem) (li : LineItem)
    (post : List LineItem) (tx : TxState)
    (hpre : ∀ x ∈ pre, x.customizations ≠ none)
    (hli : li.customizations = none) :
    ∃ tx' logs, process_line_items payload (pre ++ li :: post) tx =
      (some (.keyError "customizations"), tx', logs) := by
  induction pre generalizing tx with
  | nil =>
      refine ⟨tx, [], ?_⟩
      simp only [List.nil_append, process_line_items, process_line_item, hli]
  | cons x pre ih =>
      obtain ⟨tx1, logs1, h1⟩ :=
        process_line_item_no_exn payload x tx (hpre x (List.mem_cons_self x pre))
      obtain ⟨tx2, logs2, h2⟩ := ih tx1 (fun y hy => hpre y (List.mem_cons_of_mem x hy))
      exact ⟨tx2, logs1 ++ logs2,
        by simp only [List.cons_append, process_line_items, List.append_eq, h1, h2]⟩

/-- Claim C10: a line item lacking the `customizations` key (preceded by
line items that have it) makes `insert_items` raise an uncaught lookup
error -- only uniqueness-violation and failed-transaction errors are
caught -- so the run aborts with `KeyError`, the remaining line items and
orders of the batch are never processed (the run's result is the
exception, not a success or error dict), and the connection-close path is
skipped. -/
theorem insert_items_missing_customizations_raises
    (payload : Order) (postOrders : List Order) (pre post : List LineItem) (li : LineItem)
    (table : List Row)
    (hsplit : payload.lineItems = pre ++ li :: post)
    (hli : li.customizations = none)
    (hpre : ∀ x ∈ pre, x.customizations ≠ none) :
    (insert_items none (.items (payload :: postOrders)) table).result
      = .error (.keyError "customizations")
    ∧ (insert_items none (.items (payload :: postOrders)) table).connClosed = false := by
  obtain ⟨tx1, logs1, h1⟩ :=
    process_line_items_keyError payload pre li post ⟨table, [], false⟩ hpre hli
  have h2 : process_orders (payload :: postOrders) ⟨table, [], false⟩ =
      (some (.keyError "customizations"), tx1, logs1) := by
    simp only [process_orders, hsplit, h1]
  refine ⟨?_, ?_⟩ <;> simp [insert_items, h2]

/-- The line item of the missing-customizations witness. -/
def wLineItemK : LineItem := mkLineItem "li-4" none none

/-- The order of the missing-customizations witness. -/
def wOrderK : Order := mkOrder "1004" [wLineItemK]

/-- Witness for `insert_items_missing_customizations_raises` at a
concrete order whose only line item lacks `customizations`. -/
theorem insert_items_missing_customizations_raises_witness :
    (insert_items none (.items [wOrderK]) []).result = .error (.keyError "customizations")
    ∧ (insert_items none (.items [wOrderK]) []).connClosed = false :=
  insert_items_missing_customizations_raises wOrderK [] [] [] wLineItemK [] rfl rfl (by simp)
